import Mathlib

/-!
Verification of the blask video-background-removal pipeline.

This file shallowly embeds the frame-processing code of the repository:

* `outComposite` — the canvas compositing sequence of
  `convertVideoBackground`'s `processFrame` (src/unnamed/part_000,
  lines 166-189): build a white mask image whose alpha is 255/0 per
  segmentation entry, clear the output canvas, fill it with the
  background color, draw the (opaque) video frame with source-over,
  then draw the mask with globalCompositeOperation destination-in.
* `runLoopComposite` — the per-pixel alpha-matting loop of
  `upload-ar.jsx`'s `runLoop` (lines 394-406): copy RGB from the
  source frame and set alpha 255 where the mask entry is truthy,
  0 where it is falsy.
* `frameLoopComposite` — the masked/fallback compositing of
  `upload/page.jsx`'s `frameLoop` (lines 165-207): count the
  person-positive mask entries; below 100, draw the video vertically
  flipped and unmasked; otherwise draw it flipped and keep only the
  person region via destination-in with the bodyPix mask.
* `processFrameStep` / `runTicks` — the per-tick control flow of
  `convertVideoBackground`'s `processFrame` loop (lines 136-203),
  including finalization on pause/end, the behaviour of a rejected
  segmentation call, and progress reporting.
* `tickBody` / `runLoopRun` — the cancellable while-loop of
  `upload-ar.jsx`'s `runLoop` (lines 372-416) with the cancel flag
  raised by the component cleanup (lines 444-447).
* `recorderMime` — the MIME-type negotiation of
  `convertVideoBackground` (lines 52-57), whose result is the
  declared type of the final Blob (line 106).
-/

/-- A straight-alpha RGBA pixel as read back by `getImageData`; each
channel is a byte 0..255. -/
structure RGBA where
  r : Nat
  g : Nat
  b : Nat
  a : Nat
deriving DecidableEq, Repr

/-- Force a pixel opaque: `drawImage` of a video frame (which has no
alpha channel) paints fully opaque pixels. -/
def setOpaque (p : RGBA) : RGBA :=
  ⟨p.r, p.g, p.b, 255⟩

/-- Porter-Duff destination-in as observable through `getImageData`:
the destination keeps its color where the source has alpha, the result
alpha is the product of the two alphas, and a fully transparent result
pixel reads back as transparent black (the canvas stores premultiplied
pixels, so the color of an alpha-0 pixel is lost). -/
def destinationIn (dst src : RGBA) : RGBA :=
  let a := dst.a * src.a / 255
  if a = 0 then ⟨0, 0, 0, 0⟩ else ⟨dst.r, dst.g, dst.b, a⟩

/-- One pixel of the mask image built in `processFrame`
(src/unnamed/part_000 lines 169-175): white, with alpha 255 when the
segmentation entry is truthy and 0 otherwise. -/
def maskPixel (segVal : Nat) : RGBA :=
  ⟨255, 255, 255, if segVal != 0 then 255 else 0⟩

/-- The compositing sequence of `processFrame`
(src/unnamed/part_000 lines 178-189) on a surface of one pixel per
frame entry: `clearRect`, `fillRect` with the (opaque) background
color, `drawImage` of the opaque frame with source-over — which, the
source being fully opaque, replaces every pixel — and finally
`drawImage` of the mask canvas with destination-in. -/
def outComposite (bgColor : RGBA) (frame : List RGBA) (seg : List Nat) : List RGBA :=
  -- clearRect then fillRect: every pixel becomes the opaque fill color
  let afterFill : List RGBA := frame.map (fun _ => bgColor)
  -- drawImage(tempCanvas): source-over with a fully opaque source replaces the destination
  let afterFrame : List RGBA := List.zipWith (fun f _ => setOpaque f) frame afterFill
  -- destination-in with the mask canvas
  List.zipWith destinationIn afterFrame (seg.map maskPixel)

/-- The per-pixel loop of `runLoop` in upload-ar.jsx (lines 398-404):
output RGB copied from the source pixels, output alpha 255 where the
mask entry is truthy and 0 where it is falsy. -/
def runLoopComposite (src : List RGBA) (mask : List Nat) : List RGBA :=
  List.zipWith (fun s m => ⟨s.r, s.g, s.b, if m != 0 then 255 else 0⟩) src mask

/-- Count of person-positive segmentation entries, as computed by the
`for` loop in `frameLoop` (upload/page.jsx lines 174-177), over a mask
given row by row. -/
def countPos (seg : List (List Nat)) : Nat :=
  (seg.map (fun row => (row.filter (fun s => s != 0)).length)).sum

/-- One pixel of `bodyPix.toMask(segmentation, {r:0,g:0,b:0,a:255},
{r:0,g:0,b:0,a:0})` (upload/page.jsx line 188): opaque black on person
pixels, transparent elsewhere. -/
def toMaskPixel (segVal : Nat) : RGBA :=
  if segVal != 0 then ⟨0, 0, 0, 255⟩ else ⟨0, 0, 0, 0⟩

/-- Vertical flip of a row-major image, the effect of
`translate(0, h); scale(1, -1); drawImage(...)`. -/
def verticalFlip (rows : List (List RGBA)) : List (List RGBA) :=
  rows.reverse

/-- The compositing step of `frameLoop` (upload/page.jsx lines
179-207) on a row-major frame and mask of equal shape. Below 100
person-positive entries the video is drawn flipped and unmasked
(opaque); otherwise the flipped video is masked with destination-in by
the bodyPix mask, which is drawn under the same flip transform, so the
result is the flip of the per-pixel masked image. -/
def frameLoopComposite (frame : List (List RGBA)) (seg : List (List Nat)) : List (List RGBA) :=
  if countPos seg < 100 then
    verticalFlip (frame.map (fun row => row.map setOpaque))
  else
    verticalFlip (List.zipWith
      (fun frow srow => List.zipWith
        (fun p s => destinationIn (setOpaque p) (toMaskPixel s)) frow srow)
      frame seg)

/-- The MIME negotiation of `convertVideoBackground`
(src/unnamed/part_000 lines 52-57): the requested type is used only
when `MediaRecorder` exists, exposes `isTypeSupported`, and that check
accepts the type; otherwise the recorder falls back to "video/webm".
The final Blob is declared with this type (line 106). -/
def recorderMime (hasMediaRecorder hasIsTypeSupported : Bool)
    (isTypeSupported : String → Bool) (mimeType : String) : String :=
  let supportedMime := (hasMediaRecorder && hasIsTypeSupported && isTypeSupported mimeType) || false
  if supportedMime then mimeType else "video/webm"

/-- A JavaScript number as it occurs for media `currentTime` and
`duration`: NaN (duration before metadata), positive infinity (live
streams), or a finite rational. Negative infinity and negative zero do
not occur for these quantities and are not modelled. -/
inductive JSNum where
  | nan : JSNum
  | inf : JSNum
  | fin : ℚ → JSNum
deriving DecidableEq, Repr

/-- JavaScript truthiness of a number: NaN and 0 are falsy, everything
else is truthy. -/
def JSNum.truthy : JSNum → Bool
  | .nan => false
  | .inf => true
  | .fin q => decide (q ≠ 0)

/-- Whether a JavaScript number is finite (neither NaN nor infinite). -/
def JSNum.isFin : JSNum → Bool
  | .fin _ => true
  | _ => false

/-- IEEE-754 division on the modelled (nonnegative) numbers:
anything by NaN or NaN by anything is NaN, finite by infinity is 0,
infinity by infinity is NaN, infinity by finite is infinity, finite by
zero is infinity (NaN for 0/0), and finite by nonzero finite is exact
rational division. -/
def jsDiv : JSNum → JSNum → JSNum
  | _, .nan => .nan
  | .nan, _ => .nan
  | .fin _, .inf => .fin 0
  | .inf, .inf => .nan
  | .inf, .fin _ => .inf
  | .fin a, .fin b => if b = 0 then (if a = 0 then .nan else .inf) else .fin (a / b)

/-- `Math.min(1, x)`: NaN propagates, infinity is clamped to 1, and a
finite argument is clamped to at most 1. -/
def jsMin1 : JSNum → JSNum
  | .nan => .nan
  | .inf => .fin 1
  | .fin q => .fin (min 1 q)

/-- The mutable state of one `convertVideoBackground` run that the
`processFrame` loop touches (src/unnamed/part_000 lines 97-203). -/
structure PipeState where
  /-- The dead local `stopped` flag (line 134; never set to true). -/
  stopped : Bool
  /-- Whether `recorder.state` differs from inactive. -/
  recorderActive : Bool
  /-- The chunks accumulated by `ondataavailable` (lines 99-101). -/
  chunks : List Nat
  /-- The pixels of `outCanvas`, the published composite surface. -/
  surface : List RGBA
  /-- The value the outer promise has been resolved with by
  `recorder.onstop` (lines 105-114), if any. -/
  resolvedWith : Option (List Nat)
  /-- Whether the combined stream's tracks have been stopped. -/
  tracksStopped : Bool
deriving DecidableEq, Repr

/-- The outcome of an awaited `segmentPerson` call: the promise
either rejected or resolved with a binary mask. -/
inductive SegResult where
  | rejected : SegResult
  | resolved : List Nat → SegResult
deriving DecidableEq, Repr

/-- The per-tick environment of one `processFrame` invocation:
the video element's flags and clock, the decoded frame, the outcome of
the awaited `net.segmentPerson` call, whether an `onProgress` callback
was supplied, and whether that callback would throw. -/
structure TickInput where
  paused : Bool
  ended : Bool
  frame : List RGBA
  seg : SegResult
  hasOnProgress : Bool
  currentTime : JSNum
  duration : JSNum
  progressThrows : Bool
deriving DecidableEq, Repr

/-- What one `processFrame` invocation produces: the successor state,
whether `requestAnimationFrame(processFrame)` was reached (line 200),
and the argument passed to `onProgress`, if it was invoked. -/
structure TickResult where
  state : PipeState
  scheduledNext : Bool
  progressReported : Option JSNum
deriving DecidableEq, Repr

/-- One invocation of `processFrame` (src/unnamed/part_000 lines
136-201). If the video is paused or ended, or the dead `stopped` flag
is set, the recorder is stopped when still active (its `onstop`
handler resolves the promise with the accumulated chunks), the
stream's tracks are stopped, and the function returns without
scheduling another frame. Otherwise the awaited segmentation call
either rejects — the exception is uncaught, so nothing after the
`await` runs: no composite, no progress report, and no next frame is
scheduled — or resolves, in which case the surface is recomposited
with `outComposite`, `onProgress` is invoked with
`Math.min(1, currentTime / duration)` when supplied and the duration
is truthy (any exception it throws is caught and ignored, lines
191-197), and the next frame is scheduled. -/
def processFrameStep (bgColor : RGBA) (st : PipeState) (inp : TickInput) : TickResult :=
  if inp.paused || inp.ended || st.stopped then
    let st1 :=
      if st.recorderActive then
        { st with recorderActive := false, resolvedWith := some st.chunks,
                  tracksStopped := true }
      else
        { st with tracksStopped := true }
    ⟨st1, false, none⟩
  else
    match inp.seg with
    | .rejected => ⟨st, false, none⟩
    | .resolved seg =>
      let st1 := { st with surface := outComposite bgColor inp.frame seg }
      let prog :=
        if inp.hasOnProgress && inp.duration.truthy then
          some (jsMin1 (jsDiv inp.currentTime inp.duration))
        else
          none
      ⟨st1, true, prog⟩

/-- The `processFrame` loop driven by `requestAnimationFrame`: ticks
are processed in order as long as each tick re-schedules; once a tick
fails to reach `requestAnimationFrame(processFrame)`, no later tick
ever runs. -/
def runTicks (bgColor : RGBA) : PipeState → List TickInput → PipeState
  | st, [] => st
  | st, inp :: rest =>
    let r := processFrameStep bgColor st inp
    if r.scheduledNext then runTicks bgColor r.state rest else r.state

/-- The state of the `runLoop` while-loop of upload-ar.jsx: the
`segmentationLoop.running` and `segmentationLoop.cancel` flags (line
316, set by the cleanup at lines 444-447), the pixels of
`outputCanvas`, and how many times `canvasTex.needsUpdate` has been
set (the publish signal to the renderer, line 409). -/
structure ARLoopState where
  running : Bool
  cancel : Bool
  surface : List RGBA
  publishCount : Nat
deriving DecidableEq, Repr

/-- One iteration's environment for `runLoop`: the frame drawn into
the source canvas, the outcome of the awaited `model.segmentPerson`
call, and whether the cleanup raised the cancel flag while that call
was suspended. -/
structure AREvent where
  frame : List RGBA
  seg : SegResult
  cancelDuringAwait : Bool
deriving DecidableEq, Repr

/-- The body of one `runLoop` iteration (upload-ar.jsx lines 383-412),
entered after the while-condition passed: the cancel flag may be
raised while the segmentation call is suspended; a rejected call is
caught and ignored; a resolved call is composited into the output
canvas with `runLoopComposite` and published by setting
`canvasTex.needsUpdate` — the code does not re-check the cancel flag
after the `await`. -/
def tickBody (st : ARLoopState) (e : AREvent) : ARLoopState :=
  let st1 := { st with cancel := st.cancel || e.cancelDuringAwait }
  match e.seg with
  | .rejected => st1
  | .resolved m =>
    { st1 with surface := runLoopComposite e.frame m,
               publishCount := st1.publishCount + 1 }

/-- The `while (segmentationLoop.running && !segmentationLoop.cancel)`
loop of `runLoop` (upload-ar.jsx line 374), consuming one event per
iteration and stopping at the first condition check that fails. -/
def runLoopRun : ARLoopState → List AREvent → ARLoopState
  | st, [] => st
  | st, e :: rest =>
    if st.running && !st.cancel then runLoopRun (tickBody st e) rest else st

/-- The default background color '#00FF00' of `convertVideoBackground`. -/
def greenPix : RGBA := ⟨0, 255, 0, 255⟩

/-- An opaque red source pixel used in concrete checks. -/
def redPix : RGBA := ⟨255, 0, 0, 255⟩

/-- The 2x2 test frame of the end-to-end scenario, drawn opaque. -/
def exFrame : List RGBA :=
  [⟨255, 0, 0, 255⟩, ⟨0, 255, 0, 255⟩, ⟨0, 0, 255, 255⟩, ⟨255, 255, 0, 255⟩]

/-- The mask of the end-to-end scenario. -/
def exMask : List Nat := [1, 0, 0, 1]

/-- C1: the claim says solid-background compositing yields alpha 255 at
every pixel, frame colors on the person region, and the configured
background color on every non-person pixel. On a one-pixel red frame
whose mask entry is 0 against a green background, the code instead
yields a fully transparent pixel: the frame draw covers the background
fill and the destination-in mask then erases everything outside the
person region, background included. -/
theorem C1_solid_policy_background_erased :
    outComposite greenPix [redPix] [0] = [⟨0, 0, 0, 0⟩] ∧
    outComposite greenPix [redPix] [0] ≠ [greenPix] ∧
    (outComposite greenPix [redPix] [0]).map RGBA.a ≠ [255] := by
  decide

/-- Index-wise description of `runLoopComposite`: at every index below
the common length, the output pixel copies the source RGB and derives
its alpha from the mask entry. -/
theorem runLoopComposite_getD (src : List RGBA) (mask : List Nat) (i : Nat)
    (hlen : src.length = mask.length) (hi : i < mask.length) :
    (runLoopComposite src mask).getD i ⟨0, 0, 0, 0⟩ =
      ⟨(src.getD i ⟨0, 0, 0, 0⟩).r, (src.getD i ⟨0, 0, 0, 0⟩).g,
       (src.getD i ⟨0, 0, 0, 0⟩).b,
       if mask.getD i 0 != 0 then 255 else 0⟩ := by
  induction src generalizing mask i with
  | nil =>
    cases mask with
    | nil => simp at hi
    | cons m ms => simp at hlen
  | cons s ss ih =>
    cases mask with
    | nil => simp at hi
    | cons m ms =>
      cases i with
      | zero => simp [runLoopComposite]
      | succ j =>
        have hlen2 : ss.length = ms.length := by simpa using hlen
        have hj : j < ms.length := by simpa using hi
        simpa [runLoopComposite] using ih ms j hlen2 hj

/-- C2: for every frame/mask pair of equal pixel count, the
transparent-background composite has alpha exactly 255 where the mask
entry is truthy and exactly 0 where it is falsy — never an
intermediate value — with the source RGB copied unchanged; and on the
2x2 scenario frame with mask [1,0,0,1] the alphas are [255,0,0,255]
with the RGB of the masked pixels unchanged. -/
theorem C2_transparent_policy_alpha_binary (src : List RGBA) (mask : List Nat)
    (i : Nat) (hlen : src.length = mask.length) (hi : i < mask.length) :
    (((runLoopComposite src mask).getD i ⟨0, 0, 0, 0⟩).a
        = if mask.getD i 0 != 0 then 255 else 0) ∧
    (((runLoopComposite src mask).getD i ⟨0, 0, 0, 0⟩).a = 0 ∨
     ((runLoopComposite src mask).getD i ⟨0, 0, 0, 0⟩).a = 255) ∧
    ((runLoopComposite src mask).getD i ⟨0, 0, 0, 0⟩).r
        = (src.getD i ⟨0, 0, 0, 0⟩).r ∧
    ((runLoopComposite src mask).getD i ⟨0, 0, 0, 0⟩).g
        = (src.getD i ⟨0, 0, 0, 0⟩).g ∧
    ((runLoopComposite src mask).getD i ⟨0, 0, 0, 0⟩).b
        = (src.getD i ⟨0, 0, 0, 0⟩).b ∧
    runLoopComposite exFrame exMask =
      [⟨255, 0, 0, 255⟩, ⟨0, 255, 0, 0⟩, ⟨0, 0, 255, 0⟩, ⟨255, 255, 0, 255⟩] := by
  have h := runLoopComposite_getD src mask i hlen hi
  refine ⟨by rw [h], ?_, by rw [h], by rw [h], by rw [h], by decide⟩
  rcases Bool.eq_false_or_eq_true (mask.getD i 0 != 0) with hm | hm
  · right; rw [h, if_pos hm]
  · left; rw [h, if_neg (by rw [hm]; simp)]

/-- Closed instance of `C2_transparent_policy_alpha_binary` on the 2x2
scenario frame at index 1. -/
theorem C2_transparent_policy_alpha_binary_witness :
    exFrame.length = exMask.length ∧ 1 < exMask.length ∧
    ((((runLoopComposite exFrame exMask).getD 1 ⟨0, 0, 0, 0⟩).a
        = if exMask.getD 1 0 != 0 then 255 else 0) ∧
     (((runLoopComposite exFrame exMask).getD 1 ⟨0, 0, 0, 0⟩).a = 0 ∨
      ((runLoopComposite exFrame exMask).getD 1 ⟨0, 0, 0, 0⟩).a = 255) ∧
     ((runLoopComposite exFrame exMask).getD 1 ⟨0, 0, 0, 0⟩).r
        = (exFrame.getD 1 ⟨0, 0, 0, 0⟩).r ∧
     ((runLoopComposite exFrame exMask).getD 1 ⟨0, 0, 0, 0⟩).g
        = (exFrame.getD 1 ⟨0, 0, 0, 0⟩).g ∧
     ((runLoopComposite exFrame exMask).getD 1 ⟨0, 0, 0, 0⟩).b
        = (exFrame.getD 1 ⟨0, 0, 0, 0⟩).b ∧
     runLoopComposite exFrame exMask =
       [⟨255, 0, 0, 255⟩, ⟨0, 255, 0, 0⟩, ⟨0, 0, 255, 0⟩, ⟨255, 255, 0, 255⟩]) :=
  ⟨by decide, by decide,
   C2_transparent_policy_alpha_binary exFrame exMask 1 (by decide) (by decide)⟩

/-- C3: when fewer than 100 mask entries are person-positive, the
composite is exactly the vertically flipped source frame, drawn opaque
and unmasked; masking (flip plus destination-in with the bodyPix mask)
is applied only when the count is at least 100. -/
theorem C3_low_count_fallback (frame : List (List RGBA)) (seg : List (List Nat)) :
    (countPos seg < 100 →
      frameLoopComposite frame seg
          = verticalFlip (frame.map (fun row => row.map setOpaque)) ∧
      ∀ row ∈ frameLoopComposite frame seg, ∀ p ∈ row, p.a = 255) ∧
    (100 ≤ countPos seg →
      frameLoopComposite frame seg = verticalFlip (List.zipWith
        (fun frow srow => List.zipWith
          (fun p s => destinationIn (setOpaque p) (toMaskPixel s)) frow srow)
        frame seg)) := by
  constructor
  · intro h
    have he : frameLoopComposite frame seg
        = verticalFlip (frame.map (fun row => row.map setOpaque)) := by
      simp [frameLoopComposite, h]
    refine ⟨he, ?_⟩
    intro row hrow p hp
    rw [he] at hrow
    simp only [verticalFlip, List.mem_reverse, List.mem_map] at hrow
    obtain ⟨row0, hrow0, heq⟩ := hrow
    subst heq
    simp only [List.mem_map] at hp
    obtain ⟨p0, hp0, heq2⟩ := hp
    subst heq2
    rfl
  · intro h
    have hnot : ¬ countPos seg < 100 := by omega
    simp [frameLoopComposite, hnot]

/-- Closed instance of `C3_low_count_fallback`: a one-pixel frame with
an empty person mask is emitted flipped, opaque and unmasked. -/
theorem C3_low_count_fallback_witness :
    countPos [[0]] < 100 ∧
    (frameLoopComposite [[redPix]] [[0]]
        = verticalFlip ([[redPix]].map (fun row => row.map setOpaque)) ∧
     ∀ row ∈ frameLoopComposite [[redPix]] [[0]], ∀ p ∈ row, p.a = 255) :=
  ⟨by decide, (C3_low_count_fallback [[redPix]] [[0]]).1 (by decide)⟩

/-- A running session: recorder active, one chunk accumulated, promise
unresolved, surface holding the previous composite. -/
def stRec : PipeState :=
  { stopped := false, recorderActive := true, chunks := [7],
    surface := [greenPix], resolvedWith := none, tracksStopped := false }

/-- A playing tick whose segmentation call resolves with a one-pixel
person mask. -/
def tickOk : TickInput :=
  { paused := false, ended := false, frame := [redPix],
    seg := .resolved [1], hasOnProgress := false,
    currentTime := .fin 1, duration := .fin 10, progressThrows := false }

/-- A playing tick whose segmentation call rejects. -/
def tickRejected : TickInput :=
  { tickOk with seg := .rejected }

/-- A tick at which the source video is paused (not ended, no stop
requested). -/
def tickPaused : TickInput :=
  { tickOk with paused := true }

/-- C4: the claim says a tick whose segmentation call rejects is
logged and skipped, with the published surface left as the previous
tick's surface, and the loop keeps scheduling — in every variant
including `convertVideoBackground`. In `convertVideoBackground` the
awaited `segmentPerson` call has no surrounding try/catch, so on the
concrete rejecting tick the surface is indeed left untouched, but
`requestAnimationFrame(processFrame)` is never reached: no further
tick is scheduled and nothing is logged. -/
theorem C4_seg_rejection_halts_recording_loop :
    (processFrameStep greenPix stRec tickRejected).state.surface = stRec.surface ∧
    (processFrameStep greenPix stRec tickRejected).scheduledNext = false := by
  decide

/-- C5: the claim says every run of the recording pipeline eventually
delivers exactly one artifact or one rejection — never zero outcomes.
In the concrete run whose second tick's segmentation call rejects, the
loop halts without ever stopping the recorder, so however many further
ticks follow, the promise is never resolved: the caller receives zero
outcomes. -/
theorem C5_seg_rejection_zero_outcomes (rest : List TickInput) :
    (runTicks greenPix stRec (tickOk :: tickRejected :: rest)).resolvedWith = none ∧
    (runTicks greenPix stRec (tickOk :: tickRejected :: rest)).recorderActive = true := by
  simp [runTicks, processFrameStep, stRec, tickOk, tickRejected]

/-- C9: if at the start of a tick the source video is paused — not
ended, no explicit stop — `processFrame` finalizes the session: the
recorder is stopped (its `onstop` handler resolves the promise with
the chunks accumulated so far), every track of the combined stream is
stopped, and no further tick is ever processed after that checkpoint. -/
theorem C9_pause_is_terminal (bgColor : RGBA) (st : PipeState) (inp : TickInput)
    (rest : List TickInput)
    (hp : inp.paused = true) (he : inp.ended = false) (hs : st.stopped = false)
    (hrec : st.recorderActive = true) :
    (processFrameStep bgColor st inp).scheduledNext = false ∧
    (processFrameStep bgColor st inp).state.recorderActive = false ∧
    (processFrameStep bgColor st inp).state.tracksStopped = true ∧
    (processFrameStep bgColor st inp).state.resolvedWith = some st.chunks ∧
    runTicks bgColor st (inp :: rest) = (processFrameStep bgColor st inp).state := by
  have hcond : (inp.paused || inp.ended || st.stopped) = true := by
    simp [hp]
  refine ⟨?_, ?_, ?_, ?_, ?_⟩ <;>
    simp [runTicks, processFrameStep, hcond, hrec]

/-- Closed instance of `C9_pause_is_terminal` on the running session
`stRec` and the paused tick. -/
theorem C9_pause_is_terminal_witness :
    tickPaused.paused = true ∧ tickPaused.ended = false ∧
    stRec.stopped = false ∧ stRec.recorderActive = true ∧
    ((processFrameStep greenPix stRec tickPaused).scheduledNext = false ∧
     (processFrameStep greenPix stRec tickPaused).state.recorderActive = false ∧
     (processFrameStep greenPix stRec tickPaused).state.tracksStopped = true ∧
     (processFrameStep greenPix stRec tickPaused).state.resolvedWith = some stRec.chunks ∧
     runTicks greenPix stRec (tickPaused :: [tickOk])
        = (processFrameStep greenPix stRec tickPaused).state) :=
  ⟨rfl, rfl, rfl, rfl,
   C9_pause_is_terminal greenPix stRec tickPaused [tickOk] rfl rfl rfl rfl⟩

/-- Once the cancel flag is raised, the `runLoop` while-condition
fails at its next check, whatever events would still be available. -/
theorem runLoopRun_cancelled (st : ARLoopState) (l : List AREvent)
    (h : st.cancel = true) : runLoopRun st l = st := by
  cases l with
  | nil => rfl
  | cons e rest => simp [runLoopRun, h]

/-- The initial state of a running `runLoop` with an empty surface. -/
def arSt0 : ARLoopState :=
  { running := true, cancel := false, surface := [], publishCount := 0 }

/-- An iteration during whose suspended segmentation call the cleanup
raises the cancel flag, and whose call then resolves with a one-pixel
person mask. -/
def arCancelEvent : AREvent :=
  { frame := [redPix], seg := .resolved [1], cancelDuringAwait := true }

/-- C6 counterexample: the claim says the result of a segmentation
call that resolves after cancellation is discarded — never composited
nor published. On the concrete run whose only iteration is cancelled
while its segmentation call is suspended, the resolved mask is still
composited into the output surface and published (needsUpdate set
once). -/
theorem C6_cancelled_result_still_published :
    (runLoopRun arSt0 [arCancelEvent]).publishCount = 1 ∧
    (runLoopRun arSt0 [arCancelEvent]).surface = [⟨255, 0, 0, 255⟩] ∧
    arSt0.surface = [] := by
  decide

/-- C6 (amended): raising cancel while a segmentation call is
suspended halts scheduling at the next while-condition check — no
event after the in-flight one is processed — but the in-flight call's
result is still composited into the surface and published once, since
the loop body does not re-check the cancel flag after the await. -/
theorem C6_cancel_halts_after_inflight_tick (st : ARLoopState) (e : AREvent)
    (m : List Nat) (rest : List AREvent)
    (hrun : st.running = true) (hcan : st.cancel = false)
    (hcda : e.cancelDuringAwait = true) (hseg : e.seg = .resolved m) :
    runLoopRun st (e :: rest) = tickBody st e ∧
    (tickBody st e).surface = runLoopComposite e.frame m ∧
    (tickBody st e).publishCount = st.publishCount + 1 ∧
    (tickBody st e).cancel = true := by
  have hcancel : (tickBody st e).cancel = true := by
    simp [tickBody, hseg, hcan, hcda]
  refine ⟨?_, ?_, ?_, hcancel⟩
  · have hstep : runLoopRun st (e :: rest) = runLoopRun (tickBody st e) rest := by
      simp [runLoopRun, hrun, hcan]
    rw [hstep, runLoopRun_cancelled _ _ hcancel]
  · simp [tickBody, hseg]
  · simp [tickBody, hseg]

/-- Closed instance of `C6_cancel_halts_after_inflight_tick` on the
concrete cancelled run. -/
theorem C6_cancel_halts_after_inflight_tick_witness :
    arSt0.running = true ∧ arSt0.cancel = false ∧
    arCancelEvent.cancelDuringAwait = true ∧
    arCancelEvent.seg = SegResult.resolved [1] ∧
    (runLoopRun arSt0 [arCancelEvent] = tickBody arSt0 arCancelEvent ∧
     (tickBody arSt0 arCancelEvent).surface
        = runLoopComposite arCancelEvent.frame [1] ∧
     (tickBody arSt0 arCancelEvent).publishCount = arSt0.publishCount + 1 ∧
     (tickBody arSt0 arCancelEvent).cancel = true) :=
  ⟨rfl, rfl, rfl, rfl,
   C6_cancel_halts_after_inflight_tick arSt0 arCancelEvent [1] [] rfl rfl rfl rfl⟩

/-- A playing tick with a progress callback supplied:
currentTime 1s of a 10s duration. -/
def tickProg : TickInput :=
  { tickOk with hasOnProgress := true }

/-- C7: on a successful tick with known duration, the progress
callback receives `min(1, currentTime / duration)`, a value in [0,1]
that is non-decreasing in currentTime; the tick schedules the next
frame, and a throwing callback is caught and ignored — it changes
nothing about the tick's outcome. -/
theorem C7_progress_value (bgColor : RGBA) (st : PipeState) (inp : TickInput)
    (m : List Nat) (a b a2 : ℚ) (t : Bool)
    (hp : inp.paused = false) (he : inp.ended = false) (hs : st.stopped = false)
    (hseg : inp.seg = .resolved m) (hcb : inp.hasOnProgress = true)
    (hct : inp.currentTime = .fin a) (hd : inp.duration = .fin b)
    (ha : 0 ≤ a) (hb : 0 < b) (ha2 : a ≤ a2) :
    (processFrameStep bgColor st inp).progressReported
        = some (.fin (min 1 (a / b))) ∧
    0 ≤ min 1 (a / b) ∧ min 1 (a / b) ≤ 1 ∧
    min 1 (a / b) ≤ min 1 (a2 / b) ∧
    (processFrameStep bgColor st inp).scheduledNext = true ∧
    processFrameStep bgColor st { inp with progressThrows := t }
        = processFrameStep bgColor st inp := by
  have hcond : (inp.paused || inp.ended || st.stopped) = false := by
    simp [hp, he, hs]
  have htr : inp.duration.truthy = true := by
    rw [hd]; simp [JSNum.truthy, hb.ne']
  have hdiv : jsDiv inp.currentTime inp.duration = .fin (a / b) := by
    rw [hct, hd]; simp [jsDiv, hb.ne']
  refine ⟨?_, ?_, ?_, ?_, ?_, ?_⟩
  · simp [processFrameStep, hcond, hseg, hcb, htr, hdiv, jsMin1]
  · exact le_min (by norm_num) (div_nonneg ha hb.le)
  · exact min_le_left _ _
  · exact min_le_min le_rfl (by gcongr)
  · simp [processFrameStep, hcond, hseg]
  · rfl

/-- Closed instance of `C7_progress_value`: currentTime 1 of
duration 10 reports exactly 1/10. -/
theorem C7_progress_value_witness :
    tickProg.paused = false ∧ tickProg.ended = false ∧
    stRec.stopped = false ∧ tickProg.seg = SegResult.resolved [1] ∧
    tickProg.hasOnProgress = true ∧
    tickProg.currentTime = JSNum.fin 1 ∧ tickProg.duration = JSNum.fin 10 ∧
    ((processFrameStep greenPix stRec tickProg).progressReported
        = some (.fin (min 1 (1 / 10))) ∧
     0 ≤ min 1 ((1 : ℚ) / 10) ∧ min 1 ((1 : ℚ) / 10) ≤ 1 ∧
     min 1 ((1 : ℚ) / 10) ≤ min 1 ((2 : ℚ) / 10) ∧
     (processFrameStep greenPix stRec tickProg).scheduledNext = true ∧
     processFrameStep greenPix stRec { tickProg with progressThrows := true }
        = processFrameStep greenPix stRec tickProg) :=
  ⟨rfl, rfl, rfl, rfl, rfl, rfl, rfl,
   C7_progress_value greenPix stRec tickProg [1] 1 10 2 true rfl rfl rfl rfl rfl
     rfl rfl (by norm_num) (by norm_num) (by norm_num)⟩

/-- C8: the final blob's declared media type is the requested MIME
type exactly when MediaRecorder exists, exposes `isTypeSupported`, and
that check accepts the requested type; in every other case — check
refuses, MediaRecorder missing, or `isTypeSupported` missing — it is
the default "video/webm". -/
theorem C8_mime_negotiation (hasMR hasITS : Bool) (its : String → Bool)
    (m : String) :
    (hasMR = true → hasITS = true → its m = true →
      recorderMime hasMR hasITS its m = m) ∧
    (its m = false → recorderMime hasMR hasITS its m = "video/webm") ∧
    (hasMR = false → recorderMime hasMR hasITS its m = "video/webm") ∧
    (hasITS = false → recorderMime hasMR hasITS its m = "video/webm") := by
  cases hasMR <;> cases hasITS <;> cases hits : its m <;>
    simp [recorderMime, hits]

/-- Closed instances of `C8_mime_negotiation`: a supported request is
kept; without MediaRecorder the default is used. -/
theorem C8_mime_negotiation_witness :
    recorderMime true true (fun _ => true) "video/mp4" = "video/mp4" ∧
    recorderMime false true (fun _ => true) "video/mp4" = "video/webm" :=
  ⟨(C8_mime_negotiation true true (fun _ => true) "video/mp4").1 rfl rfl rfl,
   (C8_mime_negotiation false true (fun _ => true) "video/mp4").2.2.1 rfl⟩

/-- With a finite numerator and a truthy denominator, the clamped
quotient `Math.min(1, ct / d)` is a finite number. -/
theorem jsMin1_jsDiv_isFin (q : ℚ) (d : JSNum) (hd : d.truthy = true) :
    (jsMin1 (jsDiv (.fin q) d)).isFin = true := by
  cases d with
  | nan => simp [JSNum.truthy] at hd
  | inf => rfl
  | fin r =>
    have hr : r ≠ 0 := by simpa [JSNum.truthy] using hd
    simp [jsDiv, hr, jsMin1, JSNum.isFin]

/-- C10: `onProgress` is never invoked on a tick whose duration is
falsy (0 or NaN), and on any tick with a finite currentTime where it
is invoked, the value it receives is finite — never NaN or Infinity. -/
theorem C10_progress_never_nan (bgColor : RGBA) (st : PipeState)
    (inp : TickInput) (q : ℚ) (v : JSNum)
    (hct : inp.currentTime = .fin q) :
    (inp.duration.truthy = false →
      (processFrameStep bgColor st inp).progressReported = none) ∧
    ((processFrameStep bgColor st inp).progressReported = some v →
      v.isFin = true) := by
  by_cases hcond : (inp.paused || inp.ended || st.stopped) = true
  · constructor
    · intro _
      simp [processFrameStep, hcond]
    · intro hv
      simp [processFrameStep, hcond] at hv
  · have hcond2 : (inp.paused || inp.ended || st.stopped) = false :=
      Bool.eq_false_iff.mpr hcond
    cases hseg : inp.seg with
    | rejected =>
      constructor
      · intro _
        simp [processFrameStep, hcond2, hseg]
      · intro hv
        simp [processFrameStep, hcond2, hseg] at hv
    | resolved mm =>
      constructor
      · intro hfal
        simp [processFrameStep, hcond2, hseg, hfal]
      · intro hv
        by_cases hg : (inp.hasOnProgress && inp.duration.truthy) = true
        · have htr : inp.duration.truthy = true := by
            cases h2 : inp.duration.truthy
            · rw [h2] at hg; simp at hg
            · rfl
          simp [processFrameStep, hcond2, hseg, hg] at hv
          rw [hct] at hv
          subst hv
          exact jsMin1_jsDiv_isFin q inp.duration htr
        · simp [processFrameStep, hcond2, hseg, hg] at hv

/-- Closed instance of `C10_progress_never_nan`: on the playing tick
with duration 10 the reported value is finite, and on the same tick
with a zero duration nothing is reported. -/
theorem C10_progress_never_nan_witness :
    tickProg.currentTime = JSNum.fin 1 ∧
    ((tickProg.duration.truthy = false →
      (processFrameStep greenPix stRec tickProg).progressReported = none) ∧
     ((processFrameStep greenPix stRec tickProg).progressReported
        = some (JSNum.fin (min 1 (1 / 10))) →
      (JSNum.fin (min 1 ((1 : ℚ) / 10))).isFin = true)) :=
  ⟨rfl,
   C10_progress_never_nan greenPix stRec tickProg 1 (.fin (min 1 (1 / 10))) rfl⟩
